import Mathlib

/- Verification of the DeZero reverse-mode automatic-differentiation engine
   (src/step/step01 ... step11).

   Modelling conventions:
   * The numeric payload (a scalar-shaped numpy float64 ndarray) is modelled as
     an element of a commutative ring or field: ℚ for the executable scenarios,
     ℝ where the exponential function is involved.  Floating-point rounding is
     out of scope; the spec itself treats the payload as an opaque numeric
     array with elementwise arithmetic.
   * Python object identity is modelled by an arena: a graph state holds the
     list of Variable objects and the list of called Function instances, both
     addressed by their index of creation.  Mutation of an object is an update
     of the arena at its index.
   * Python exceptions are modelled by an error component in the result; a
     raised exception leaves all mutations performed so far in place, exactly
     like python.
   * np.ones_like on a scalar-shaped array is the payload 1; as_array on a
     value produced by the kernels is the identity (the kernels return arrays
     when fed arrays). -/

namespace DeZero

/-- Payloads a caller can hand to Variable.__init__ (step09 lines 11-17):
a numpy ndarray, a plain python number (int/float), or python None. -/
inductive Payload (α : Type) where
  | ndarr (v : α)
  | pynum (v : α)
  | pynone
deriving DecidableEq

/-- The python TypeError raised by the constructor type guard. -/
inductive InitErr where
  | typeError
deriving DecidableEq

/-- A Variable object (step09 lines 10-17): the stored data (None allowed),
the gradient (None until backward sets it) and the creator, modelled as the
arena index of the Function instance that produced this node. -/
structure Variable (α : Type) where
  data : Option α
  grad : Option α
  creator : Option Nat
deriving DecidableEq

/-- step09 Variable.__init__: if data is not None it must be an ndarray,
otherwise TypeError is raised; ndarray data is stored unchanged; None skips
the check and is stored as-is; grad and creator start as None. -/
def Variable.init {α : Type} (p : Payload α) : Except InitErr (Variable α) :=
  match p with
  | .pynone => .ok ⟨none, none, none⟩
  | .ndarr v => .ok ⟨some v, none, none⟩
  | .pynum _ => .error .typeError

/-- A concrete single-input operation: its forward rule and its backward rule.
The backward rule receives the stored input data x and the output gradient gy,
exactly the two values step09 Square.backward / Exp.backward read. -/
structure OpRule (α : Type) where
  forward : α → α
  backward : α → α → α

/-- A Function instance of the step09 engine after __call__ has run: the rule
together with the remembered self.input and self.output (arena indices). -/
structure Fn (α : Type) where
  op : OpRule α
  input : Nat
  output : Nat

/-- The heap of objects built while evaluating an expression: all Variable
objects and all called Function instances, indexed by order of creation. -/
structure Graph (α : Type) where
  nodes : List (Variable α)
  fns : List (Fn α)

/-- A graph holding a single fresh leaf x = Variable(np.array(v)). -/
def Graph.ofLeaf {α : Type} (v : α) : Graph α :=
  ⟨[⟨some v, none, none⟩], []⟩

/-- Gradient currently stored on node i, when the node exists. -/
def Graph.gradAt {α : Type} (g : Graph α) (i : Nat) : Option α :=
  match g.nodes[i]? with
  | some n => n.grad
  | none => none

/-- step09 Square: forward x ** 2, backward 2 * x * gy. -/
def Square {α : Type} [CommRing α] : OpRule α :=
  ⟨fun x => x ^ 2, fun x gy => 2 * x * gy⟩

/-- step09 Exp: forward np.exp(x), backward np.exp(x) * gy. -/
noncomputable def Exp : OpRule ℝ :=
  ⟨Real.exp, fun x gy => Real.exp x * gy⟩

/-- step09 Function.__call__ on a freshly constructed Function instance (this
is what the helpers square(x) = Square()(x) and exp(x) = Exp()(x) do): read
input.data, run forward, wrap the result as a new Variable whose creator is
this instance, and remember self.input / self.output.  Returns the new
output's index.  None results model a raised exception (the kernels raise
TypeError when fed None data) or a dangling index (impossible in python). -/
def callFresh {α : Type} (g : Graph α) (op : OpRule α) (x : Nat) :
    Option (Graph α × Nat) :=
  (g.nodes[x]?).bind (fun xv =>
    xv.data.bind (fun xd =>
      some (⟨g.nodes ++ [⟨some (op.forward xd), none, some g.fns.length⟩],
             g.fns ++ [⟨op, x, g.nodes.length⟩]⟩, g.nodes.length)))

/-- step09 Function.__call__ on an ALREADY CALLED Function instance fid
(python allows reusing one instance; the second call overwrites the stored
self.input and self.output of the first). -/
def callAgain {α : Type} (g : Graph α) (fid : Nat) (x : Nat) :
    Option (Graph α × Nat) :=
  match g.fns[fid]?, g.nodes[x]? with
  | some f, some xv =>
    match xv.data with
    | none => none
    | some xd =>
      let y := f.op.forward xd
      let oid := g.nodes.length
      some (⟨g.nodes ++ [⟨some y, none, some fid⟩], g.fns.set fid ⟨f.op, x, oid⟩⟩, oid)
  | _, _ => none

/-- Errors the backward drivers can raise, plus two modelling artifacts. -/
inductive PyErr where
  /-- AttributeError: popping None from funcs and reading .input on it
  (step09) or .inputs on it (step11). -/
  | attrNone
  /-- AttributeError: step11 binds y to f.outputs, a list, and reads y.grad. -/
  | attrList
  /-- TypeError from arithmetic on None data or None gradient. -/
  | noneArith
  /-- Modelling artifact: a dangling arena index (impossible in python). -/
  | badIndex
  /-- Modelling artifact: the loop has not finished within the given fuel. -/
  | running
deriving DecidableEq

/-- The step09 backward while-loop (lines 26-33), fuel-indexed.  funcs is the
worklist (top of the python stack at the head here: python appends and pops
at the same end, so this is the same stack discipline).  The returned list
records the index of every Function instance processed, in order; it is pure
instrumentation and feeds the claims about re-processing.  Each iteration
pops f, reads x, y = f.input, f.output, ASSIGNS x.grad = f.backward(y.grad)
(overwriting any gradient already there), and pushes x.creator if not None.
A .running error means the loop was still going after `fuel` iterations. -/
def run {α : Type} (fuel : Nat) (g : Graph α) (funcs : List (Option Nat))
    (tr : List Nat) : Graph α × List Nat × Option PyErr :=
  match funcs with
  | [] => (g, tr, none)
  | fopt :: rest =>
    match fuel with
    | 0 => (g, tr, some .running)
    | fuel + 1 =>
      match fopt with
      | none => (g, tr, some .attrNone)
      | some fid =>
        match g.fns[fid]? with
        | none => (g, tr, some .badIndex)
        | some f =>
          match g.nodes[f.input]?, g.nodes[f.output]? with
          | some xv, some yv =>
            match xv.data, yv.grad with
            | some xd, some gy =>
              let gx := f.op.backward xd gy
              let g2 : Graph α := ⟨g.nodes.set f.input ⟨xv.data, some gx, xv.creator⟩, g.fns⟩
              let funcs2 := match xv.creator with
                | none => rest
                | some c => some c :: rest
              run fuel g2 funcs2 (tr ++ [fid])
            | _, _ => (g, tr, some .noneArith)
          | _, _ => (g, tr, some .badIndex)

/-- step09 Variable.backward (lines 22-33): if self.grad is None it is seeded
with np.ones_like(self.data) (payload 1 for a scalar-shaped array), then the
loop starts from funcs = [self.creator]. -/
def backward {α : Type} [One α] (fuel : Nat) (g : Graph α) (v : Nat) :
    Graph α × List Nat × Option PyErr :=
  match g.nodes[v]? with
  | none => (g, [], some .badIndex)
  | some nv =>
    let seeded : Variable α :=
      match nv.grad with
      | none => ⟨nv.data, some 1, nv.creator⟩
      | some gv => ⟨nv.data, some gv, nv.creator⟩
    run fuel ⟨g.nodes.set v seeded, g.fns⟩ [nv.creator] []

/-- Claim C1: for a leaf x with x.value = 3.0, building y = square(x) and
calling y.backward() leaves x.gradient == 6.0, and the traversal finishes
without error. -/
theorem c1_backward_single_path :
    ((callFresh (Graph.ofLeaf (3 : ℚ)) Square 0).map
        (fun p => ((backward 2 p.1 p.2).1.gradAt 0, (backward 2 p.1 p.2).2.2)))
      = some (some 6, none) := by
  have h : ((callFresh (Graph.ofLeaf (3 : ℚ)) Square 0).map
        (fun p => ((backward 2 p.1 p.2).1.gradAt 0, (backward 2 p.1 p.2).2.2)))
      = some (some (2 * 3 * 1), none) := rfl
  rw [h]
  norm_num

/-- Claim C4 evaluated on the code: backward() on a fresh leaf DOES seed the
gradient to ones-like, but then the loop pops self.creator = None from funcs
and f.input raises AttributeError, contrary to the claimed error-free no-op.
The result records: the AttributeError, the seeded gradient 1, and that no
Function instance was processed. -/
theorem c4_leaf_backward_raises :
    (backward 1 (Graph.ofLeaf (3 : ℚ)) 0).2.2 = some PyErr.attrNone ∧
    (backward 1 (Graph.ofLeaf (3 : ℚ)) 0).1.gradAt 0 = some 1 ∧
    (backward 1 (Graph.ofLeaf (3 : ℚ)) 0).2.1 = [] :=
  ⟨rfl, rfl, rfl⟩

/-- Reusing one Function instance, as python permits: f = Square();
a = f(x); b = f(a) on the leaf x = Variable(np.array(3.0)).  The second call
overwrites f.input and f.output, so both a.creator and b.creator point at the
same instance, whose stored input a has that instance as its own creator. -/
def reuseScenario : Option (Graph ℚ × Nat) :=
  (callFresh (Graph.ofLeaf (3 : ℚ)) Square 0).bind (fun p => callAgain p.1 0 p.2)

/-- Claim C6 evaluated on the code: the step09 driver pushes x.creator with
no membership check, so in the instance-reuse graph the same application
(index 0) is popped and processed on every iteration: after 5 units of fuel
the processed-application trace is [0, 0, 0, 0, 0] and the loop is still
running (in python, b.backward() never terminates). -/
theorem c6_no_dedupe_reprocessed :
    reuseScenario.map
        (fun p => ((backward 5 p.1 p.2).2.1, (backward 5 p.1 p.2).2.2))
      = some ([0, 0, 0, 0, 0], some PyErr.running) := rfl

/-- Claim C5, counterexample: python None is not a supported numeric array
payload, yet Variable.__init__ accepts it without raising (the type check is
guarded by `if data is not None`), so construction from a non-array payload
does not always fail. -/
theorem c5_counterexample_none_accepted :
    (Variable.init (Payload.pynone : Payload ℚ)).toOption.isSome = true := rfl

/-- Claim C5 (amended): constructing a leaf from a plain python number fails
with TypeError and is never silently coerced, and constructing from a
supported array payload succeeds with the stored value unchanged; the one
non-array payload that is accepted anyway is python None. -/
theorem c5_type_guard {α : Type} (v : α) :
    Variable.init (Payload.pynum v) = .error .typeError ∧
    Variable.init (Payload.ndarr v) = .ok ⟨some v, none, none⟩ :=
  ⟨rfl, rfl⟩

/-- Claim C9: constructing a node with payload None succeeds, skipping the
type check, and yields a node whose data, grad and creator are all None. -/
theorem c9_none_payload_node :
    Variable.init (Payload.pynone : Payload ℚ) = .ok ⟨none, none, none⟩ := rfl

/-- A step11 Function rule: forward consumes the list of input data values
(each possibly None) and either produces the list of output values or raises
(None).  step11 never defines a backward for Add, and its driver raises
before any backward call could happen (see run11). -/
structure FnRule11 (α : Type) where
  forward : List (Option α) → Option (List α)

/-- A step11 Function instance after __call__: the rule plus the remembered
self.inputs and self.outputs, stored as the exact arena indices of the
Variable objects involved (no copies). -/
structure Fn11 (α : Type) where
  op : FnRule11 α
  inputs : List Nat
  outputs : List Nat

/-- The heap of objects for the step11 engine. -/
structure Graph11 (α : Type) where
  nodes : List (Variable α)
  fns : List (Fn11 α)

/-- Gradient currently stored on node i of a step11 graph. -/
def Graph11.gradAt {α : Type} (g : Graph11 α) (i : Nat) : Option α :=
  match g.nodes[i]? with
  | some n => n.grad
  | none => none

/-- step11 Add.forward (lines 197-201): x0, x1 = xs; y = x0 + x1; return (y,).
Anything but exactly two non-None operands raises. -/
def AddFn {α : Type} [Add α] : FnRule11 α :=
  ⟨fun xs => match xs with
    | [some a, some b] => some [a + b]
    | _ => none⟩

/-- step11 Function.__call__ (lines 141-162): xs = [x.data for x in inputs];
ys = self.forward(xs); each y becomes Variable(as_array(y)) with creator set
to this instance; self.inputs stores the exact input list and self.outputs
the exact list of created outputs.  Returns the output index list. -/
def call11 {α : Type} (g : Graph11 α) (op : FnRule11 α) (inputs : List Nat) :
    Option (Graph11 α × List Nat) :=
  match inputs.mapM (fun i => g.nodes[i]?) with
  | none => none
  | some invars =>
    match op.forward (invars.map Variable.data) with
    | none => none
    | some ys =>
      let fid := g.fns.length
      let base := g.nodes.length
      let outIds := (List.range ys.length).map (fun k => base + k)
      some (⟨g.nodes ++ ys.map (fun y => ⟨some y, none, some fid⟩),
             g.fns ++ [⟨op, inputs, outIds⟩]⟩, outIds)

/-- The step11 backward while-loop (lines 77-88).  Its body executes
x, y = f.inputs, f.outputs and then evaluates y.grad; y is bound to the LIST
f.outputs, which has no grad attribute, so the very first processed instance
raises AttributeError — the multi-input traversal the spec flags as
unfinished.  Popping None raises AttributeError as in step09. -/
def run11 {α : Type} (fuel : Nat) (g : Graph11 α) (funcs : List (Option Nat)) :
    Graph11 α × Option PyErr :=
  match funcs with
  | [] => (g, none)
  | fopt :: _rest =>
    match fuel with
    | 0 => (g, some .running)
    | _fuel + 1 =>
      match fopt with
      | none => (g, some .attrNone)
      | some fid =>
        match g.fns[fid]? with
        | none => (g, some .badIndex)
        | some _f => (g, some .attrList)

/-- step11 Variable.backward (lines 63-88): seed ones-like if grad is None,
then loop from funcs = [self.creator]. -/
def backward11 {α : Type} [One α] (fuel : Nat) (g : Graph11 α) (v : Nat) :
    Graph11 α × Option PyErr :=
  match g.nodes[v]? with
  | none => (g, some .badIndex)
  | some nv =>
    let seeded : Variable α :=
      match nv.grad with
      | none => ⟨nv.data, some 1, nv.creator⟩
      | some gv => ⟨nv.data, some gv, nv.creator⟩
    run11 fuel ⟨g.nodes.set v seeded, g.fns⟩ [nv.creator]

/-- The fan-out graph of claim C2: y = Add()([x, x]) built from the single
leaf x = Variable(np.array(3.0)). -/
def addTwice : Option (Graph11 ℚ × List Nat) :=
  call11 (⟨[⟨some 3, none, none⟩], []⟩ : Graph11 ℚ) AddFn [0, 0]

/-- Claim C2 evaluated on the code: the forward build succeeds (output node 1
holds 3 + 3), but y.backward() raises AttributeError when the driver reads
.grad off the list f.outputs, and the leaf gradient x.grad is still None
afterwards — not 2.0.  No accumulation rule exists anywhere: the step09
driver assigns x.grad = f.backward(y.grad) outright. -/
theorem c2_add_fanout_crashes :
    addTwice.map
        (fun p => (p.2, (backward11 2 p.1 1).2, (backward11 2 p.1 1).1.gradAt 0))
      = some ([1], some PyErr.attrList, none) := rfl

/-- Claim C8: a successful application mutates no pre-existing node (inputs
included): the old arena prefix is intact; the application stores exactly the
given input indices and the indices of the nodes it created (identity, not
copies); and every created output is a fresh node whose creator back-reference
is this application. -/
theorem c8_call_no_input_mutation {α : Type} (g : Graph11 α) (op : FnRule11 α)
    (inputs : List Nat) (g2 : Graph11 α) (outs : List Nat)
    (h : call11 g op inputs = some (g2, outs)) :
    g2.nodes.take g.nodes.length = g.nodes ∧
    g2.fns = g.fns ++ [⟨op, inputs, outs⟩] ∧
    ∀ o ∈ outs, g.nodes.length ≤ o ∧
      (g2.nodes[o]?).map Variable.creator = some (some g.fns.length) := by
  unfold call11 at h
  split at h
  next => exact absurd h (by simp)
  next invars hm =>
    split at h
    next => exact absurd h (by simp)
    next ys hf =>
      simp only [Option.some.injEq, Prod.mk.injEq] at h
      obtain ⟨hg, ho⟩ := h
      subst hg
      subst ho
      refine ⟨List.take_left _ _, rfl, ?_⟩
      intro o ho
      rw [List.mem_map] at ho
      obtain ⟨k, hk, rfl⟩ := ho
      rw [List.mem_range] at hk
      refine ⟨Nat.le_add_right _ _, ?_⟩
      rw [List.getElem?_append_right (Nat.le_add_right _ _),
        Nat.add_sub_cancel_left, List.getElem?_map,
        List.getElem?_eq_getElem (by simpa using hk)]
      rfl

/-- Input graph for the C8 witness: xs = [Variable(2.0), Variable(3.0)], as
at the bottom of step11. -/
def c8In : Graph11 ℚ := ⟨[⟨some 2, none, none⟩, ⟨some 3, none, none⟩], []⟩

/-- Result graph of Add()([x0, x1]) on c8In. -/
def c8Out : Graph11 ℚ :=
  ⟨[⟨some 2, none, none⟩, ⟨some 3, none, none⟩, ⟨some (2 + 3), none, some 0⟩],
   [⟨AddFn, [0, 1], [2]⟩]⟩

/-- Claim C8, witness: the frame theorem instantiated on Add applied to the
two concrete leaves of the step11 demonstration code. -/
theorem c8_call_no_input_mutation_witness :
    c8Out.nodes.take c8In.nodes.length = c8In.nodes ∧
    c8Out.fns = c8In.fns ++ [⟨AddFn, [0, 1], [2]⟩] ∧
    c8In.nodes.length ≤ 2 ∧
    (c8Out.nodes[2]?).map Variable.creator = some (some c8In.fns.length) := by
  have h := c8_call_no_input_mutation c8In AddFn [0, 1] c8Out [2] rfl
  exact ⟨h.1, h.2.1, (h.2.2 2 (by simp)).1, (h.2.2 2 (by simp)).2⟩

/-- A python value as handed back to the caller: step04 numerical_diff wraps
the array difference quotient in float(), so its result is a plain float
scalar, not an ndarray. -/
inductive PyVal (α : Type) where
  | float (v : α)
  | ndarr (v : α)
deriving DecidableEq

/-- True exactly for ndarray-valued results. -/
def PyVal.isNdarray {α : Type} : PyVal α → Bool
  | .ndarr _ => true
  | .float _ => false

/-- step04 numerical_diff (lines 29-38) with the perturbation eps explicit
(the python default is eps = 1e-4): build two fresh perturbed leaves
x0 = Variable(x.data - eps) and x1 = Variable(x.data + eps) (their payloads
are arrays, so the constructor type check passes), evaluate y0 = f(x0) and
y1 = f(x1) by ordinary forward application of f, and return
float((y1.data - y0.data) / (2 * eps)).  f is a graph-building function such
as the square/exp helpers; the graph is threaded to model the python heap of
objects, and a None result models a raised exception. -/
def numericalDiff {α : Type} [Field α]
    (f : Graph α → Nat → Option (Graph α × Nat)) (g : Graph α) (x : Nat)
    (eps : α) : Option (Graph α × PyVal α) :=
  (g.nodes[x]?).bind (fun xv =>
    xv.data.bind (fun xd =>
      (f ⟨g.nodes ++ [⟨some (xd - eps), none, none⟩]
            ++ [⟨some (xd + eps), none, none⟩], g.fns⟩
          g.nodes.length).bind (fun p0 =>
        (f p0.1 (g.nodes ++ [(⟨some (xd - eps), none, none⟩ : Variable α)]).length).bind
          (fun p1 =>
            (p1.1.nodes[p0.2]?).bind (fun y0v =>
              (p1.1.nodes[p1.2]?).bind (fun y1v =>
                y0v.data.bind (fun d0 =>
                  y1v.data.bind (fun d1 =>
                    some (p1.1, .float ((d1 - d0) / (2 * eps)))))))))))

/-- Claim C7, counterexample: on f = square, x = Variable(np.array(2.0)) and
the default eps = 1e-4 (exactly 1/10000 here), numerical_diff succeeds and
its result is NOT an array value — the source converts it with float() —
contrary to the claimed array result. -/
theorem c7_counterexample_result_not_array :
    (numericalDiff (fun g i => callFresh g (Square : OpRule ℚ) i)
        (Graph.ofLeaf 2) 0 (1 / 10000)).map (fun p => p.2.isNdarray)
      = some false := rfl

/-- A fresh application never mutates a pre-existing node: the old arena
prefix of the node list is intact. -/
theorem callFresh_frame {α : Type} (g : Graph α) (op : OpRule α) (x : Nat)
    (g2 : Graph α) (o : Nat) (h : callFresh g op x = some (g2, o)) :
    ∀ j, j < g.nodes.length → g2.nodes[j]? = g.nodes[j]? := by
  unfold callFresh at h
  rcases Option.bind_eq_some.mp h with ⟨xv, hx, h⟩
  rcases Option.bind_eq_some.mp h with ⟨xd, hd, h⟩
  simp only [Option.some.injEq, Prod.mk.injEq] at h
  obtain ⟨hg, _⟩ := h
  subst hg
  intro j hj
  simp [List.getElem?_append, hj]

/-- Claim C7 (amended): for any kernel op applied through the step09 helper
(as in numerical_diff(square, x) of the step10 tests), any leaf payload c
and any eps (the python default being eps = 1e-4), numerical_diff evaluates
the kernel forward rule at x.data + eps and x.data - eps by plain forward
application and returns their central difference
(f(x+eps).value - f(x-eps).value) / (2*eps) as a FLOAT scalar. -/
theorem c7_central_difference_float {α : Type} [Field α] (op : OpRule α)
    (c eps : α) :
    (numericalDiff (fun g2 i => callFresh g2 op i) (Graph.ofLeaf c) 0
        eps).map (fun p => p.2)
      = some (.float
          ((op.forward (c + eps) - op.forward (c - eps)) / (2 * eps))) := rfl

/-- Claim C10: numerical_diff never writes to the node x it is given — it
builds two fresh perturbed leaves and applies f to those — so, provided f
itself only creates new objects and never mutates existing ones (the frame
hypothesis hf), x.data, x.grad and x.creator after the call are exactly what
they were before. -/
theorem c10_numerical_diff_frame {α : Type} [Field α]
    (f : Graph α → Nat → Option (Graph α × Nat)) (g : Graph α) (x : Nat)
    (eps : α)
    (hf : ∀ g1 i g2 o, f g1 i = some (g2, o) →
      ∀ j, j < g1.nodes.length → g2.nodes[j]? = g1.nodes[j]?) :
    ∀ g3 r, numericalDiff f g x eps = some (g3, r) →
      g3.nodes[x]? = g.nodes[x]? := by
  intro g3 r h
  unfold numericalDiff at h
  rcases Option.bind_eq_some.mp h with ⟨xv, hx, h⟩
  rcases Option.bind_eq_some.mp h with ⟨xd, hd, h⟩
  rcases Option.bind_eq_some.mp h with ⟨p0, hC, h⟩
  rcases Option.bind_eq_some.mp h with ⟨p1, hD, h⟩
  rcases Option.bind_eq_some.mp h with ⟨y0v, hy0, h⟩
  rcases Option.bind_eq_some.mp h with ⟨y1v, hy1, h⟩
  rcases Option.bind_eq_some.mp h with ⟨d0, hd0, h⟩
  rcases Option.bind_eq_some.mp h with ⟨d1, hd1, h⟩
  simp only [Option.some.injEq, Prod.mk.injEq] at h
  obtain ⟨hg, _⟩ := h
  subst hg
  have hxlt : x < g.nodes.length := by
    rcases List.getElem?_eq_some.mp hx with ⟨hlt, _⟩
    exact hlt
  have hB : ((g.nodes ++ [⟨some (xd - eps), none, none⟩]
      ++ [⟨some (xd + eps), none, none⟩] : List (Variable α)))[x]?
      = g.nodes[x]? := by
    rw [List.getElem?_append, if_pos (by simp; omega),
      List.getElem?_append, if_pos hxlt]
  have hC2 := hf _ _ _ _ hC x (by simp; omega)
  have hxltC : x < p0.1.nodes.length := by
    rcases List.getElem?_eq_some.mp ((hC2.trans hB).trans hx) with ⟨hlt, _⟩
    exact hlt
  have hD2 := hf _ _ _ _ hD x hxltC
  rw [hD2, hC2, hB]

/-- Claim C10, witness: the frame theorem on f = square, the leaf
x = Variable(np.array(2.0)) and the default eps; afterwards node x is
unchanged. -/
theorem c10_numerical_diff_frame_witness :
    ((numericalDiff (fun g i => callFresh g (Square : OpRule ℚ) i)
        (Graph.ofLeaf 2) 0 (1 / 10000)).map (fun p => p.1.nodes[0]?))
      = some ((Graph.ofLeaf (2 : ℚ)).nodes[0]?) := by
  rcases hres : numericalDiff (fun g i => callFresh g (Square : OpRule ℚ) i)
      (Graph.ofLeaf 2) 0 (1 / 10000) with _ | p
  · have hs : (numericalDiff (fun g i => callFresh g (Square : OpRule ℚ) i)
        (Graph.ofLeaf 2) 0 (1 / 10000)).isSome = true := rfl
    rw [hres] at hs
    cases hs
  · have hfr := c10_numerical_diff_frame
      (fun g i => callFresh g (Square : OpRule ℚ) i) (Graph.ofLeaf 2) 0
      (1 / 10000) (fun g1 i g2 o hcall => callFresh_frame g1 Square i g2 o hcall)
      p.1 p.2 (by rw [hres])
    show some (p.1.nodes[0]?) = some ((Graph.ofLeaf (2 : ℚ)).nodes[0]?)
    exact congrArg some hfr

/-- Degree-3 Taylor bound for exp at t = 1/5000 (the doubled default eps):
upper-tail form of Real.exp_bound. -/
theorem exp_taylor3_up :
    |Real.exp (1 / 5000 : ℝ) - (1 + 1 / 5000 + (1 / 5000 : ℝ) ^ 2 / 2)|
      ≤ (1 / 5000 : ℝ) ^ 3 * (2 / 9) := by
  have h := Real.exp_bound (x := (1 / 5000 : ℝ))
    (by rw [abs_of_nonneg (by norm_num : (0 : ℝ) ≤ 1 / 5000)]; norm_num)
    (n := 3) (by norm_num)
  have hsum : ∑ m ∈ Finset.range 3, ((1 / 5000 : ℝ)) ^ m / m.factorial
      = 1 + 1 / 5000 + (1 / 5000 : ℝ) ^ 2 / 2 := by
    norm_num [Finset.sum_range_succ]
  have habs : |(1 / 5000 : ℝ)| = 1 / 5000 :=
    abs_of_nonneg (by norm_num)
  rw [hsum, habs] at h
  calc |Real.exp (1 / 5000 : ℝ) - (1 + 1 / 5000 + (1 / 5000 : ℝ) ^ 2 / 2)|
      ≤ _ := h
    _ ≤ (1 / 5000 : ℝ) ^ 3 * (2 / 9) := by norm_num [Nat.factorial]

/-- Degree-3 Taylor bound for exp at -1/5000. -/
theorem exp_taylor3_down :
    |Real.exp (-(1 / 5000) : ℝ) - (1 - 1 / 5000 + (1 / 5000 : ℝ) ^ 2 / 2)|
      ≤ (1 / 5000 : ℝ) ^ 3 * (2 / 9) := by
  have h := Real.exp_bound (x := (-(1 / 5000) : ℝ))
    (by rw [abs_of_nonpos] <;> norm_num) (n := 3) (by norm_num)
  have hsum : ∑ m ∈ Finset.range 3, (-(1 / 5000 : ℝ)) ^ m / m.factorial
      = 1 - 1 / 5000 + (1 / 5000 : ℝ) ^ 2 / 2 := by
    norm_num [Finset.sum_range_succ]
  have habs : |(-(1 / 5000) : ℝ)| = 1 / 5000 := by
    rw [abs_of_nonpos] <;> norm_num
  rw [hsum, habs] at h
  calc |Real.exp (-(1 / 5000) : ℝ) - (1 - 1 / 5000 + (1 / 5000 : ℝ) ^ 2 / 2)|
      ≤ _ := h
    _ ≤ (1 / 5000 : ℝ) ^ 3 * (2 / 9) := by norm_num [Nat.factorial]

/-- The symmetric difference exp(t) - exp(-t) differs from 2t by at most
(4/9)t^3 at t = 1/5000. -/
theorem exp_symm_diff_bound :
    |Real.exp (1 / 5000 : ℝ) - Real.exp (-(1 / 5000) : ℝ) - 2 * (1 / 5000 : ℝ)|
      ≤ (1 / 5000 : ℝ) ^ 3 * (4 / 9) := by
  have key : Real.exp (1 / 5000 : ℝ) - Real.exp (-(1 / 5000) : ℝ)
        - 2 * (1 / 5000 : ℝ)
      = (Real.exp (1 / 5000 : ℝ) - (1 + 1 / 5000 + (1 / 5000 : ℝ) ^ 2 / 2))
        - (Real.exp (-(1 / 5000) : ℝ)
            - (1 - 1 / 5000 + (1 / 5000 : ℝ) ^ 2 / 2)) := by
    ring
  rw [key]
  calc |(Real.exp (1 / 5000 : ℝ) - (1 + 1 / 5000 + (1 / 5000 : ℝ) ^ 2 / 2))
        - (Real.exp (-(1 / 5000) : ℝ)
            - (1 - 1 / 5000 + (1 / 5000 : ℝ) ^ 2 / 2))|
      ≤ |Real.exp (1 / 5000 : ℝ) - (1 + 1 / 5000 + (1 / 5000 : ℝ) ^ 2 / 2)|
        + |Real.exp (-(1 / 5000) : ℝ)
            - (1 - 1 / 5000 + (1 / 5000 : ℝ) ^ 2 / 2)| := abs_sub _ _
    _ ≤ (1 / 5000 : ℝ) ^ 3 * (2 / 9) + (1 / 5000 : ℝ) ^ 3 * (2 / 9) :=
        add_le_add exp_taylor3_up exp_taylor3_down
    _ = (1 / 5000 : ℝ) ^ 3 * (4 / 9) := by ring

/-- The graph y = square(exp(x)) of claim C3, built on the leaf
x = Variable(np.array(0.5)). -/
noncomputable def chainBuild : Option (Graph ℝ × Nat) :=
  (callFresh (Graph.ofLeaf (0.5 : ℝ)) Exp 0).bind
    (fun p => callFresh p.1 Square p.2)

/-- The graph-building function lambda v: square(exp(v)). -/
noncomputable def sqExp : Graph ℝ → Nat → Option (Graph ℝ × Nat) :=
  fun g i => (callFresh g Exp i).bind (fun p => callFresh p.1 Square p.2)

/-- The value numerical_diff(lambda v: square(exp(v)), x) computes at
x.value = 0.5 with the default eps = 1e-4. -/
noncomputable def c3nd : ℝ :=
  ((Real.exp (0.5 + 1 / 10000)) ^ 2 - (Real.exp (0.5 - 1 / 10000)) ^ 2)
    / (2 * (1 / 10000))

/-- The analytic gradient 2*exp(0.5)*exp(0.5) and the central difference
c3nd agree within relative tolerance 1e-4 and absolute tolerance 1e-8. -/
theorem c3_tolerance :
    |2 * Real.exp 0.5 * Real.exp 0.5 - c3nd| ≤ 1e-8 + 1e-4 * |c3nd| := by
  have hplus : (Real.exp (0.5 + 1 / 10000 : ℝ)) ^ 2
      = Real.exp 1 * Real.exp (1 / 5000) := by
    rw [pow_two, ← Real.exp_add, ← Real.exp_add]
    congr 1
    norm_num
  have hminus : (Real.exp (0.5 - 1 / 10000 : ℝ)) ^ 2
      = Real.exp 1 * Real.exp (-(1 / 5000)) := by
    rw [pow_two, ← Real.exp_add, ← Real.exp_add]
    congr 1
    norm_num
  have hc3nd : c3nd = Real.exp 1
      * ((Real.exp (1 / 5000) - Real.exp (-(1 / 5000))) * 5000) := by
    unfold c3nd
    rw [hplus, hminus]
    ring
  have h05 : 2 * Real.exp 0.5 * Real.exp 0.5 = 2 * Real.exp 1 := by
    rw [mul_assoc, ← Real.exp_add]
    congr 1
    norm_num
  rcases abs_le.mp exp_symm_diff_bound with ⟨hD1, hD2⟩
  have he2 : (2 : ℝ) < Real.exp 1 := lt_trans (by norm_num) Real.exp_one_gt_d9
  have he3 : Real.exp 1 < 3 := lt_trans Real.exp_one_lt_d9 (by norm_num)
  have hspos : (0 : ℝ) < Real.exp (1 / 5000) - Real.exp (-(1 / 5000)) := by
    have hcube : ((1 / 5000 : ℝ)) ^ 3 * (4 / 9) ≤ 1 / 5000 := by norm_num
    linarith
  have hub : Real.exp 1 * (Real.exp (1 / 5000) - Real.exp (-(1 / 5000)))
      ≤ Real.exp 1 * (2 * (1 / 5000) + (1 / 5000 : ℝ) ^ 3 * (4 / 9)) :=
    mul_le_mul_of_nonneg_left (by linarith) (le_of_lt (Real.exp_pos 1))
  have hlb : Real.exp 1 * (2 * (1 / 5000) - (1 / 5000 : ℝ) ^ 3 * (4 / 9))
      ≤ Real.exp 1 * (Real.exp (1 / 5000) - Real.exp (-(1 / 5000))) :=
    mul_le_mul_of_nonneg_left (by linarith) (le_of_lt (Real.exp_pos 1))
  have hXpos : (0 : ℝ) < Real.exp 1
      * ((Real.exp (1 / 5000) - Real.exp (-(1 / 5000))) * 5000) :=
    mul_pos (Real.exp_pos 1) (by linarith)
  rw [h05, hc3nd, abs_of_pos hXpos, abs_le]
  constructor
  · nlinarith [hub, hlb, he2, he3]
  · nlinarith [hub, hlb, he2, he3]

/-- Claim C3: after building y = square(exp(x)) on the leaf x.value = 0.5
and calling y.backward(), the traversal finishes without error and the leaf
gradient equals the analytic derivative 2*exp(x)*exp(x) at 0.5; moreover
that gradient agrees with the central-difference estimate computed by
numerical_diff(lambda v: square(exp(v)), x) at the default eps = 1e-4,
within relative tolerance 1e-4 and absolute tolerance 1e-8. -/
theorem c3_chain_rule_gradient_check :
    chainBuild.map
        (fun p => ((backward 3 p.1 p.2).1.gradAt 0, (backward 3 p.1 p.2).2.2))
      = some (some (2 * Real.exp 0.5 * Real.exp 0.5), none) ∧
    (numericalDiff sqExp (Graph.ofLeaf (0.5 : ℝ)) 0 (1 / 10000)).map
        (fun p => p.2) = some (.float c3nd) ∧
    |2 * Real.exp 0.5 * Real.exp 0.5 - c3nd| ≤ 1e-8 + 1e-4 * |c3nd| := by
  refine ⟨?_, rfl, c3_tolerance⟩
  have h : chainBuild.map
        (fun p => ((backward 3 p.1 p.2).1.gradAt 0, (backward 3 p.1 p.2).2.2))
      = some (some (Real.exp 0.5 * (2 * Real.exp 0.5 * 1)), none) := rfl
  have h2 : Real.exp 0.5 * (2 * Real.exp 0.5 * 1)
      = 2 * Real.exp 0.5 * Real.exp 0.5 := by ring
  rw [h, h2]

end DeZero
